import Mathlib

/-!
Verification of the purchase-request workflow app (src/index.tsx).

Modelling conventions:
* A stored JSON document is an association list from field name to the textual
  form of its scalar value (`Doc`); JSON booleans and numbers appearing in
  request documents are represented by their JSON literal text.
* The Realtime-Database tree under `/compras` is a keyed list of documents
  (`Store`); HTTP `PATCH` on `/compras/{id}.json` merges the payload into the
  document stored at `id` (creating it when absent), and `POST` on
  `/compras.json` appends a document under a store-generated fresh key.
* Transport failures (`!response.ok` branches) are outside the domain model:
  the store is the state and always answers.  The operations below therefore
  throw exactly where the source throws for domain reasons.
* `new Date().toISOString()` timestamps are passed in as an explicit `now`
  argument.
-/

namespace Compras

/-- A JSON document: field name to textual scalar value. -/
abbrev Doc := List (String × String)

/-- Field lookup in a document (first binding wins). -/
def dget (d : Doc) (k : String) : Option String :=
  (d.find? (fun p => p.1 == k)).map (fun p => p.2)

/-- JS object spread / Firebase PATCH merge: every key of `delta` overrides the
corresponding key of `base`; keys absent from `delta` keep their `base` value. -/
def patchDoc (base delta : Doc) : Doc :=
  delta ++ base.filter (fun p => (dget delta p.1).isNone)

/-- The `/compras` collection: generated key to document. -/
abbrev Store := List (String × Doc)

/-- Document stored under a key. -/
def sget (s : Store) (id : String) : Option Doc :=
  (s.find? (fun p => p.1 == id)).map (fun p => p.2)

/-- Firebase `PATCH /compras/{id}.json`: merge `delta` into the document at
`id`, creating the document when the key is absent. -/
def patchAt (s : Store) (id : String) (delta : Doc) : Store :=
  match s with
  | [] => [(id, delta)]
  | p :: rest => if p.1 == id then (p.1, patchDoc p.2 delta) :: rest
                 else p :: patchAt rest id delta

/-- A field of the request stored under `id`. -/
def reqField (s : Store) (id : String) (k : String) : Option String :=
  (sget s id).bind (fun d => dget d k)

/-! ## Lifecycle operations (databaseService, src/index.tsx) -/

/-- Model of `databaseService.updatePurchaseRequestStatus` (src/index.tsx 262-281).
Builds `payload = {status}` plus, for `aprovado`, `approvedAt = now`, and, for
`reprovado`, `rejectedAt = now` and `justification = justification || ''`;
then PATCHes the payload into `/compras/{id}`.  The source checks neither the
current status of the request nor any role. -/
def updatePurchaseRequestStatus (store : Store) (id : String) (status : String)
    (justification : Option String) (now : String) : Store :=
  let payload : Doc :=
    if status == "aprovado" then
      [("status", status), ("approvedAt", now)]
    else if status == "reprovado" then
      [("status", status), ("rejectedAt", now), ("justification", justification.getD "")]
    else
      [("status", status)]
  patchAt store id payload

/-- The payload of `databaseService.confirmPurchase` (src/index.tsx 282-298):
the object literal `{status: 'comprado', purchasedAt: now, ...purchaseData}`,
whose spread lets `purchaseData` keys override the two engine-written keys. -/
def confirmPayload (now : String) (purchaseData : Doc) : Doc :=
  patchDoc [("status", "comprado"), ("purchasedAt", now)] purchaseData

/-- Model of `databaseService.confirmPurchase` (src/index.tsx 282-298): PATCH the
confirm payload into `/compras/{id}`.  No status precondition, no role. -/
def confirmPurchase (store : Store) (id : String) (purchaseData : Doc)
    (now : String) : Store :=
  patchAt store id (confirmPayload now purchaseData)

/-- The signed-in user as the transition pages see it; only the role matters
here. -/
structure Actor where
  role : String

/-- Model of `AprovarComprasPage.handleConfirmApproval` (src/index.tsx 1476-1493).  The
page receives no user object at all and consults no role before calling
`databaseService.updatePurchaseRequestStatus(id, 'aprovado')`; the actor
argument records who clicked and is, faithfully to the source, unused. -/
def handleConfirmApproval (_actor : Actor) (store : Store) (id : String)
    (now : String) : Store :=
  updatePurchaseRequestStatus store id "aprovado" none now

/-- Model of `AprovarComprasPage.handleConfirmRejection` (src/index.tsx 1495-1513):
calls `updatePurchaseRequestStatus(id, 'reprovado', justification)` with no
role or status check. -/
def handleConfirmRejection (_actor : Actor) (store : Store) (id : String)
    (justification : String) (now : String) : Store :=
  updatePurchaseRequestStatus store id "reprovado" (some justification) now

/-- Model of `SetorComprasPage.handleConfirmPurchase` (src/index.tsx 1838-1858): calls
`databaseService.confirmPurchase(id, purchaseData)` with no role or status
check; the actor argument is, faithfully to the source, unused. -/
def handleConfirmPurchase (_actor : Actor) (store : Store) (id : String)
    (purchaseData : Doc) (now : String) : Store :=
  confirmPurchase store id purchaseData now

/-! ## Role-based view gating (the only authorization in the source) -/

/-- Sidebar nav-item visibility (src/index.tsx 1062-1073): admin sees all
items; otherwise the item must be listed for the role in the page's local
`rolePermissions` record, and an unknown role sees nothing. -/
def sidebarVisible (role : String) (itemId : String) : Bool :=
  if role == "admin" then true
  else if role == "comprador" then ["formulario", "setor_compras"].contains itemId
  else if role == "aprovador" then ["formulario", "aprovar_compras"].contains itemId
  else if role == "user" then ["formulario"].contains itemId
  else false

/-- The `App` component's `rolePermissions` record with its fallback to `['formulario']`
(src/index.tsx 2746-2753), used to pick the default view for a role. -/
def rolePermissions (role : String) : List String :=
  if role == "comprador" then ["formulario", "setor_compras"]
  else if role == "aprovador" then ["formulario", "aprovar_compras"]
  else if role == "user" then ["formulario"]
  else if role == "admin" then
    ["formulario", "setor_compras", "aprovar_compras", "dashboards", "admin"]
  else ["formulario"]

/-! ## UI status gating of the transition controls -/

/-- Tab filter of `AprovarComprasPage` (src/index.tsx 1515-1523): the
`pendentes` tab keeps exactly the requests with status `pendente`. -/
def aprovarTabFilter (tab : String) (req : Doc) : Bool :=
  if tab == "pendentes" then dget req "status" == some "pendente"
  else if tab == "historico" then !(dget req "status" == some "pendente")
  else false

/-- Row condition rendering the Aprovar/Reprovar buttons (src/index.tsx 1628):
`req.status === 'pendente'`. -/
def approveButtonsShown (req : Doc) : Bool :=
  dget req "status" == some "pendente"

/-- Tab filter of `SetorComprasPage` (src/index.tsx 1982-1990): the
`pendentes` tab keeps exactly the requests with status `aprovado`. -/
def setorTabFilter (tab : String) (req : Doc) : Bool :=
  if tab == "pendentes" then dget req "status" == some "aprovado"
  else if tab == "historico" then dget req "status" == some "comprado"
  else false

/-! ## Submission (PurchaseForm, src/index.tsx 1180-1287) -/

/-- The form state (`initialFormData` shape, src/index.tsx 1180-1184).  All
fields are the strings held by the inputs. -/
structure FormData where
  nome : String
  email : String
  unidade : String
  prazo : String
  prazoDataHora : String
  urgencia : String
  tipo : String
  descricaoServico : String
  querIndicar : String
  nomeIndicado : String
  nomeProduto : String
  quantidadeProduto : String
  querLink : String
  linkProduto : String
deriving DecidableEq

/-- The `errors` list collected by `PurchaseForm.handleSubmit`
(src/index.tsx 1220-1242), in source order; a field is missing when its string
is empty (JS falsiness of `''`). -/
def validationErrors (f : FormData) : List String :=
  (if f.unidade == "" then ["Unidade"] else []) ++
  (if f.urgencia == "" then ["Grau de urgência"] else []) ++
  (if f.tipo == "" then ["Tipo"] else []) ++
  (if f.prazo == "sim" && f.prazoDataHora == "" then ["Data e Hora do Prazo"] else []) ++
  (if f.tipo == "servico" && f.descricaoServico == "" then ["Descrição do serviço"] else []) ++
  (if f.tipo == "servico" && f.querIndicar == "sim" && f.nomeIndicado == "" then
    ["Nome de quem quer indicar"] else []) ++
  (if f.tipo == "produto" && f.nomeProduto == "" then ["Produto (nome)"] else []) ++
  (if f.tipo == "produto" && f.quantidadeProduto == "" then ["Quantidade"] else []) ++
  (if f.tipo == "produto" && f.querLink == "sim" && f.linkProduto == "" then
    ["Link do produto"] else [])

/-- The aggregated validation message (src/index.tsx 1244-1250). -/
def validationMessage (errors : List String) : String :=
  "Por favor, preencha os campos obrigatórios: " ++ String.intercalate ", " errors ++ "."

/-- The `requestData` object persisted on submit (src/index.tsx 1255-1260):
the form fields spread first, then `requesterUid`, `createdAt` and
`status: 'pendente'`. -/
def requestData (f : FormData) (uid : String) (now : String) : Doc :=
  [("nome", f.nome), ("email", f.email), ("unidade", f.unidade),
   ("prazo", f.prazo), ("prazoDataHora", f.prazoDataHora),
   ("urgencia", f.urgencia), ("tipo", f.tipo),
   ("descricaoServico", f.descricaoServico), ("querIndicar", f.querIndicar),
   ("nomeIndicado", f.nomeIndicado), ("nomeProduto", f.nomeProduto),
   ("quantidadeProduto", f.quantidadeProduto), ("querLink", f.querLink),
   ("linkProduto", f.linkProduto), ("requesterUid", uid),
   ("createdAt", now), ("status", "pendente")]

/-- Model of `databaseService.addPurchaseRequest` (src/index.tsx 240-249): `POST` to
`/compras.json` stores the document under a store-generated key and returns
that key; the generated key is passed in as `newId`. -/
def addPurchaseRequest (store : Store) (newId : String) (doc : Doc) : Store × String :=
  (store ++ [(newId, doc)], newId)

/-- Outcome of a submission: either the aggregated validation message with no
persistence attempted, or the store extended with the new request.  (The two
fire-and-forget notification e-mails are outside the domain model.) -/
inductive SubmitResult where
  | validationError (message : String)
  | success (store : Store) (newId : String)
deriving DecidableEq

/-- Model of `PurchaseForm.handleSubmit` (src/index.tsx 1217-1287): collect all
violated constraints; when any exist, report them in one message and stop
before persisting; otherwise persist `requestData` via `addPurchaseRequest`. -/
def handleSubmit (f : FormData) (uid : String) (now : String) (newId : String)
    (store : Store) : SubmitResult :=
  let errors := validationErrors f
  if errors.isEmpty then
    .success (addPurchaseRequest store newId (requestData f uid now)).1 newId
  else
    .validationError (validationMessage errors)

/-- Model of `databaseService.getPurchaseRequests` (src/index.tsx 250-261): list the
collection as `Object.keys(data).map(key => ({id: key, ...data[key]}))`; the
spread lets a document's own `id` field (never present here) override the
injected key. -/
def getPurchaseRequests (store : Store) : List Doc :=
  store.map (fun p => patchDoc [("id", p.1)] p.2)

/-- Model of `App.fetchCounts` (src/index.tsx 2726-2738): the sidebar badge counts,
recomputed from the full listed collection. -/
def fetchCounts (requests : List Doc) : Nat × Nat :=
  ((requests.filter (fun r => dget r "status" == some "pendente")).length,
   (requests.filter (fun r => dget r "status" == some "aprovado")).length)

/-! ## Currency normalization (src/index.tsx 479-496 and 2331-2352)

Numeric amounts are modelled exactly as rationals; the decimal strings the
code handles are exactly representable, so no floating-point rounding enters
the claims below. -/

/-- Characters kept by `.replace(/[^\d,.-]+/g, '')`. -/
def isCurrencyChar (c : Char) : Bool :=
  c.isDigit || c == ',' || c == '.' || c == '-'

/-- The step `.replace(/[^\d,.-]+/g, '')`: drop every other character. -/
def stripNonCurrency (s : String) : String :=
  String.mk (s.data.filter isCurrencyChar)

/-- The step `.replace(/\./g, '')`: drop every dot (thousands separators). -/
def removeDots (s : String) : String :=
  String.mk (s.data.filter (fun c => c != '.'))

/-- The step `.replace(',', '.')` with a string pattern replaces only the first
occurrence. -/
def replaceFirstComma : List Char → List Char
  | [] => []
  | c :: cs => if c == ',' then '.' :: cs else c :: replaceFirstComma cs

/-- The full cleaning pipeline shared by `formatCurrency` (src/index.tsx 484)
and `DashboardsPage.fetchAndCalculateStats` (src/index.tsx 2336). -/
def cleanCurrency (s : String) : String :=
  String.mk (replaceFirstComma (removeDots (stripNonCurrency s)).data)

/-- Numeric value of a digit run, most significant first. -/
def digitsToNat (ds : List Char) : Nat :=
  ds.foldl (fun acc c => 10 * acc + (c.toNat - 48)) 0

/-- JS `parseFloat` restricted to the alphabet `cleanCurrency` can produce
(digits, `-`, `+`, `,`, `.`): an optional sign followed by the longest prefix
`digits ['.' digits]`; `NaN` (here `none`) when that prefix holds no digit.
Exponents and leading whitespace cannot occur after cleaning. -/
def parseFloat (s : String) : Option ℚ :=
  let cs := s.data
  let sign : Bool := match cs with
    | c :: _ => c == '-'
    | [] => false
  let rest := match cs with
    | c :: t => if c == '-' || c == '+' then t else cs
    | [] => []
  let intPart := rest.takeWhile Char.isDigit
  let afterInt := rest.dropWhile Char.isDigit
  let fracPart := match afterInt with
    | c :: t => if c == '.' then t.takeWhile Char.isDigit else []
    | [] => []
  if intPart.isEmpty && fracPart.isEmpty then none
  else
    let mag : ℚ :=
      mkRat (digitsToNat intPart * 10 ^ fracPart.length + digitsToNat fracPart)
        (10 ^ fracPart.length)
    some (if sign then -mag else mag)

/-- Input of `formatCurrency` as typed in the source:
`number | string | undefined | null`; `null` covers both `null` and
`undefined` (the function treats them alike). -/
inductive CurrencyInput where
  | null
  | str (s : String)
  | num (q : ℚ)
deriving DecidableEq

/-- Outcome of `formatCurrency`; the final `Intl.NumberFormat('pt-BR')`
rendering of a valid amount is abstracted as `formatted`. -/
inductive CurrencyDisplay where
  | naoInformado
  | valorInvalido
  | formatted (amount : ℚ)
deriving DecidableEq

/-- Model of `formatCurrency` (src/index.tsx 479-496): `null`/`undefined`/`''` display
as "não informado"; a string is cleaned and parsed, `NaN` displaying as
"Valor inválido"; a number is formatted directly. -/
def formatCurrency : CurrencyInput → CurrencyDisplay
  | .null => .naoInformado
  | .str s =>
    if s == "" then .naoInformado
    else
      match parseFloat (cleanCurrency s) with
      | none => .valorInvalido
      | some q => .formatted q
  | .num q => .formatted q

/-- The expression `a || b` on two optional string fields (JS falsiness of `''`). -/
def jsOr (a b : Option String) : Option String :=
  match a with
  | some s => if s == "" then b else some s
  | none => b

/-- JS truthiness of an optional string value. -/
def truthyStr : Option String → Bool
  | some s => s != ""
  | none => false

/-- Contribution of one request to `totalSpent` in
`DashboardsPage.fetchAndCalculateStats` (src/index.tsx 2331-2352): only
`comprado` requests count; `value = req.valorProduto || req.valorServico` is
skipped when falsy; the cleaned string that still fails `parseFloat` is
skipped by the `isNaN` guard.  Value fields are modelled as the strings the
purchase modal stores, on which `String(value)` is the identity. -/
def spendContribution (req : Doc) : ℚ :=
  if dget req "status" == some "comprado" then
    let value := jsOr (dget req "valorProduto") (dget req "valorServico")
    if truthyStr value then
      match parseFloat (cleanCurrency (value.getD "")) with
      | some q => q
      | none => 0
    else 0
  else 0

/-- The dashboard's aggregate spend over the listed collection. -/
def totalSpent (requests : List Doc) : ℚ :=
  (requests.map spendContribution).sum

/-! ## Invoice documents (Firestore side, src/index.tsx 299-360) -/

/-- A Firestore invoice document as `getInvoice` reads it: each component is
the value at the end of the corresponding optional-chained path
(`fields.mimeType?.stringValue`, `fields.pages?.arrayValue?.values` with each
entry's `stringValue`, `fields.invoiceData?.stringValue`), `none` when any
link of the chain is missing. -/
structure InvoiceFields where
  mimeType : Option String
  pages : Option (List (Option String))
  invoiceData : Option String
  originalName : Option String
  updatedAt : Option String
deriving DecidableEq

/-- The pair `getInvoice` resolves to. -/
structure InvoiceResult where
  pages : List String
  mimeType : String
deriving DecidableEq

/-- The Firestore `invoices` collection, keyed by request id. -/
abbrev InvoiceStore := List (String × InvoiceFields)

def invGet (s : InvoiceStore) (id : String) : Option InvoiceFields :=
  (s.find? (fun p => p.1 == id)).map (fun p => p.2)

/-- Firestore `PATCH` without an update mask on `invoices/{id}`: create or
fully replace the document. -/
def invSet : InvoiceStore → String → InvoiceFields → InvoiceStore
  | [], id, d => [(id, d)]
  | p :: rest, id, d =>
    if p.1 == id then (id, d) :: rest else p :: invSet rest id d

/-- Model of `databaseService.uploadAndLinkInvoice` (src/index.tsx 299-336): requires
at least one page, else throws before any write; writes the invoice document
(mimeType, pages, optional originalName, updatedAt) to Firestore first, then
PATCHes `{hasInvoice: true, invoicePagesCount: pages.length}` into the
request; JSON booleans and numbers are modelled by their literal text. -/
def uploadAndLinkInvoice (id : String) (pages : List String) (mimeType : String)
    (originalName : Option String) (now : String) (inv : InvoiceStore)
    (store : Store) : Except String (InvoiceStore × Store) :=
  if pages.isEmpty then
    .error "Nenhuma página foi processada para a nota fiscal."
  else
    let doc : InvoiceFields :=
      { mimeType := some mimeType
        pages := some (pages.map some)
        invoiceData := none
        originalName := originalName
        updatedAt := some now }
    .ok (invSet inv id doc,
         patchAt store id
           [("hasInvoice", "true"), ("invoicePagesCount", toString pages.length)])

/-- The `pageValues` computation: map each entry to its `stringValue` and `.filter(Boolean)`,
which drops both missing entries and empty strings. -/
def filterTruthyPages (vs : List (Option String)) : List String :=
  vs.filterMap (fun v =>
    match v with
    | some s => if s == "" then none else some s
    | none => none)

/-- The usable page list of a stored document: `pageValues` when the `pages`
chain resolves, else empty. -/
def usablePages (d : InvoiceFields) : List String :=
  match d.pages with
  | some vs => filterTruthyPages vs
  | none => []

/-- Model of `databaseService.getInvoice` (src/index.tsx 338-360): a missing document
(non-ok response) is "não encontrada"; a falsy `mimeType` string is an invalid
format; a non-empty filtered page list wins; otherwise a truthy legacy
`invoiceData` string becomes a single page; otherwise no page is found. -/
def getInvoice (fetched : Option InvoiceFields) : Except String InvoiceResult :=
  match fetched with
  | none => .error "Nota fiscal não encontrada."
  | some fields =>
    match fields.mimeType with
    | none => .error "Formato da nota fiscal inválido no banco de dados."
    | some mt =>
      if mt == "" then .error "Formato da nota fiscal inválido no banco de dados."
      else if (usablePages fields).length > 0 then
        .ok ⟨usablePages fields, mt⟩
      else
        match fields.invoiceData with
        | some s =>
          if s == "" then .error "Nenhuma página encontrada para esta nota fiscal."
          else .ok ⟨[s], mt⟩
        | none => .error "Nenhuma página encontrada para esta nota fiscal."

/-- Reading the invoice of a request: fetch `invoices/{id}` and decode. -/
def readInvoice (inv : InvoiceStore) (id : String) : Except String InvoiceResult :=
  getInvoice (invGet inv id)

/-! ## Concrete fixtures used in the theorems below -/

/-- A request that was already purchased. -/
def reqComprado : Doc :=
  [("status", "comprado"), ("tipo", "produto"), ("purchasedAt", "2024-01-05T10:00:00Z")]

/-- A one-request store holding a `comprado` request under `r1`. -/
def storeComprado : Store := [("r1", reqComprado)]

/-- A one-request store holding a `pendente` request under `p1`. -/
def storePendente : Store := [("p1", [("status", "pendente"), ("tipo", "produto")])]

/-- A one-request store holding an `aprovado` request under `a1`. -/
def storeAprovado : Store := [("a1", [("status", "aprovado"), ("tipo", "servico")])]

/-- A valid `produto` draft: unit, urgency, type, product name and quantity
present, both optional flags off. -/
def fProd : FormData :=
  { nome := "Ana Lima", email := "ana@exemplo.com", unidade := "Unidade 1",
    prazo := "nao", prazoDataHora := "", urgencia := "Alto", tipo := "produto",
    descricaoServico := "", querIndicar := "nao", nomeIndicado := "",
    nomeProduto := "Teclado", quantidadeProduto := "2", querLink := "nao",
    linkProduto := "" }

/-- The fixed DerivedCounts input set: 3 pendente, 2 aprovado, 1 reprovado,
4 comprado. -/
def fixedRequests : List Doc :=
  [[("status", "pendente")], [("status", "pendente")], [("status", "pendente")],
   [("status", "aprovado")], [("status", "aprovado")],
   [("status", "reprovado")],
   [("status", "comprado")], [("status", "comprado")],
   [("status", "comprado")], [("status", "comprado")]]

/-- A stored legacy invoice document: no usable entry in `pages`, payload in
the single `invoiceData` field. -/
def legacyInvoice : InvoiceFields :=
  { mimeType := some "image/png", pages := some [some "", none],
    invoiceData := some "bGVnYWN5", originalName := none, updatedAt := none }

/-- The invoice document written by attaching page `"aGVsbG8="` with mimeType
`"image/jpeg"` at time `now`. -/
def helloInvoice (origName : Option String) (now : String) : InvoiceFields :=
  { mimeType := some "image/jpeg", pages := some [some "aGVsbG8="],
    invoiceData := none, originalName := origName, updatedAt := some now }

/-! ## Basic lemmas about documents and the store -/

theorem dget_nil (k : String) : dget [] k = none := rfl

theorem dget_cons (k' v k : String) (d : Doc) :
    dget ((k', v) :: d) k = if k' == k then some v else dget d k := by
  by_cases h : (k' == k) = true
  · simp [dget, List.find?, h]
  · simp only [Bool.not_eq_true] at h
    simp [dget, List.find?, h]

theorem string_beq_false_of_ne {a b : String} (h : a ≠ b) : (a == b) = false := by
  by_cases hab : (a == b) = true
  · exact absurd (eq_of_beq hab) h
  · simpa using hab

theorem dget_append_of_some {a : Doc} (b : Doc) {k v : String}
    (h : dget a k = some v) : dget (a ++ b) k = some v := by
  induction a with
  | nil => simp [dget] at h
  | cons p rest ih =>
    rcases p with ⟨k', v'⟩
    rw [List.cons_append, dget_cons]
    rw [dget_cons] at h
    by_cases hk : (k' == k) = true
    · simpa [hk] using h
    · simp only [Bool.not_eq_true] at hk
      simp only [hk] at h ⊢
      simp [ih h]

theorem dget_append_of_none {a : Doc} (b : Doc) {k : String}
    (h : dget a k = none) : dget (a ++ b) k = dget b k := by
  induction a with
  | nil => simp
  | cons p rest ih =>
    rcases p with ⟨k', v'⟩
    rw [List.cons_append, dget_cons]
    rw [dget_cons] at h
    by_cases hk : (k' == k) = true
    · simp [hk] at h
    · simp only [Bool.not_eq_true] at hk
      simp only [hk] at h ⊢
      simp [ih h]

theorem dget_filter_of_none {delta : Doc} (base : Doc) {k : String}
    (h : dget delta k = none) :
    dget (base.filter (fun p => (dget delta p.1).isNone)) k = dget base k := by
  induction base with
  | nil => rfl
  | cons p rest ih =>
    rcases p with ⟨k', v'⟩
    by_cases hk : (k' == k) = true
    · have hk' : k' = k := eq_of_beq hk
      subst hk'
      rw [List.filter_cons]
      simp only [h, Option.isNone_none, if_true]
      simp [dget_cons]
    · simp only [Bool.not_eq_true] at hk
      rw [List.filter_cons]
      by_cases hkeep : (dget delta k').isNone = true
      · simp only [hkeep, if_true, dget_cons, hk]
        simpa [hk] using ih
      · simp only [hkeep, if_false, dget_cons, hk]
        simpa [hk] using ih

theorem dget_patchDoc_of_delta {delta : Doc} (base : Doc) {k v : String}
    (h : dget delta k = some v) : dget (patchDoc base delta) k = some v :=
  dget_append_of_some _ h

theorem dget_patchDoc_of_none {delta : Doc} (base : Doc) {k : String}
    (h : dget delta k = none) : dget (patchDoc base delta) k = dget base k := by
  unfold patchDoc
  rw [dget_append_of_none _ h, dget_filter_of_none _ h]

theorem patchDoc_nil_left (delta : Doc) : patchDoc [] delta = delta := by
  simp [patchDoc]

theorem sget_patchAt_self (s : Store) (id : String) (delta : Doc) :
    sget (patchAt s id delta) id = some (patchDoc ((sget s id).getD []) delta) := by
  induction s with
  | nil => simp [patchAt, sget, List.find?, patchDoc]
  | cons p rest ih =>
    rcases p with ⟨k', d'⟩
    by_cases hk : (k' == id) = true
    · simp [patchAt, hk, sget, List.find?]
    · simp only [Bool.not_eq_true] at hk
      simp only [patchAt, hk, if_false]
      simp only [sget, List.find?, hk] at ih ⊢
      exact ih

theorem reqField_patchAt (s : Store) (id : String) (delta : Doc) (k : String) :
    reqField (patchAt s id delta) id k =
      match dget delta k with
      | some v => some v
      | none => reqField s id k := by
  unfold reqField
  rw [sget_patchAt_self]
  cases h : dget delta k with
  | some v => simp [dget_patchDoc_of_delta _ h]
  | none =>
    cases hs : sget s id with
    | some d => simp [hs, dget_patchDoc_of_none _ h]
    | none => simp [hs, dget_patchDoc_of_none _ h, dget_nil]

theorem dget_cons_self (k v : String) (d : Doc) : dget ((k, v) :: d) k = some v := by
  rw [dget_cons]
  simp

theorem dget_cons_ne {k' k : String} (h : k' ≠ k) (v : String) (d : Doc) :
    dget ((k', v) :: d) k = dget d k := by
  rw [dget_cons, string_beq_false_of_ne h]
  simp

theorem invGet_invSet_self (s : InvoiceStore) (id : String) (d : InvoiceFields) :
    invGet (invSet s id d) id = some d := by
  induction s with
  | nil => simp [invSet, invGet, List.find?]
  | cons p rest ih =>
    by_cases h : (p.1 == id) = true
    · simp [invSet, h, invGet, List.find?]
    · simp only [Bool.not_eq_true] at h
      simp only [invSet, h, if_false]
      simp only [invGet, List.find?, h] at ih ⊢
      exact ih

theorem mem_ite_list {α : Type} {p : Prop} [Decidable p] {a : α} {l : List α} :
    (a ∈ if p then l else []) ↔ p ∧ a ∈ l := by
  split
  · simp_all
  · simp_all

/-! ## Claim theorems -/

/-- C6: `App.fetchCounts` is a pure projection of the full request collection:
`pendingApprovals` is the number of requests with status `pendente` and
`pendingPurchases` the number with status `aprovado`; on the fixed input set
{3 pendente, 2 aprovado, 1 reprovado, 4 comprado} it returns (3, 2). -/
theorem fetchCounts_pure_projection (requests : List Doc) :
    fetchCounts requests =
      (requests.countP (fun r => dget r "status" == some "pendente"),
       requests.countP (fun r => dget r "status" == some "aprovado"))
    ∧ fetchCounts fixedRequests = (3, 2) := by
  constructor
  · simp [fetchCounts, List.countP_eq_length_filter]
  · decide

/-- C1 counterexample: `updatePurchaseRequestStatus` has no status
precondition.  Approving the request `r1`, whose current status is
`comprado` (not `pendente`), does not fail: it overwrites the stored status
with `aprovado`, so the stored request is changed, contrary to the claim that
the call fails with a TransitionError and leaves the request unchanged.
Likewise `confirmPurchase` on the `pendente` request `p1` (status not
`aprovado`) succeeds and marks it `comprado`. -/
theorem approve_nonpending_overwrites :
    reqField storeComprado "r1" "status" = some "comprado"
    ∧ reqField (updatePurchaseRequestStatus storeComprado "r1" "aprovado" none
        "2024-02-01T09:00:00Z") "r1" "status" = some "aprovado"
    ∧ sget (updatePurchaseRequestStatus storeComprado "r1" "aprovado" none
        "2024-02-01T09:00:00Z") "r1" ≠ sget storeComprado "r1"
    ∧ reqField storePendente "p1" "status" = some "pendente"
    ∧ reqField (confirmPurchase storePendente "p1" [("valorProduto", "100")]
        "2024-02-01T09:00:00Z") "p1" "status" = some "comprado" := by
  decide

/-- C1 (amended): the storage operations check no status precondition and
raise no TransitionError — Approve, Reject and ConfirmPurchase patch the new
status unconditionally, whatever the current status of the stored request.
The `pendente`-only gating of Approve/Reject and the `aprovado`-only gating of
ConfirmPurchase exist only in the UI: the approval page renders the
Aprovar/Reprovar buttons exactly for rows with status `pendente` (its pending
tab also lists exactly those rows), and the purchasing page's pending tab
lists exactly the rows with status `aprovado`. -/
theorem transitions_unguarded (store : Store) (id now j : String) (pd : Doc)
    (hpd : dget pd "status" = none) :
    reqField (updatePurchaseRequestStatus store id "aprovado" none now) id "status"
      = some "aprovado"
    ∧ reqField (updatePurchaseRequestStatus store id "reprovado" (some j) now) id "status"
      = some "reprovado"
    ∧ reqField (confirmPurchase store id pd now) id "status" = some "comprado"
    ∧ (∀ r : Doc, approveButtonsShown r = true ↔ dget r "status" = some "pendente")
    ∧ (∀ r : Doc, aprovarTabFilter "pendentes" r = true ↔ dget r "status" = some "pendente")
    ∧ (∀ r : Doc, setorTabFilter "pendentes" r = true ↔ dget r "status" = some "aprovado") := by
  refine ⟨?_, ?_, ?_, ?_, ?_, ?_⟩
  · rw [show updatePurchaseRequestStatus store id "aprovado" none now
        = patchAt store id [("status", "aprovado"), ("approvedAt", now)] from rfl,
      reqField_patchAt]
    rfl
  · rw [show updatePurchaseRequestStatus store id "reprovado" (some j) now
        = patchAt store id
            [("status", "reprovado"), ("rejectedAt", now), ("justification", j)] from rfl,
      reqField_patchAt]
    rfl
  · have hc : dget (confirmPayload now pd) "status" = some "comprado" := by
      unfold confirmPayload
      rw [dget_patchDoc_of_none _ hpd, dget_cons_self]
    rw [show confirmPurchase store id pd now
        = patchAt store id (confirmPayload now pd) from rfl, reqField_patchAt, hc]
  · intro r
    simp [approveButtonsShown]
  · intro r
    simp [aprovarTabFilter]
  · intro r
    simp [setorTabFilter]

/-- C1 amended witness: a concrete instance of `transitions_unguarded`. -/
theorem transitions_unguarded_witness :
    dget ([("valorProduto", "55")] : Doc) "status" = none
    ∧ reqField (confirmPurchase storePendente "p1" [("valorProduto", "55")]
        "2024-02-02T00:00:00Z") "p1" "status" = some "comprado" :=
  ⟨by decide,
   (transitions_unguarded storePendente "p1" "2024-02-02T00:00:00Z" ""
      [("valorProduto", "55")] (by decide)).2.2.1⟩

/-- C2 counterexample: there is no role check on the transition path.  The
approval and purchase handlers pass no actor data to the database service, so
an actor with role `user` invoking Approve gets exactly the same outcome as an
admin: the call succeeds (no AuthError) and the stored request is changed,
contrary to the claim. -/
theorem user_role_approve_succeeds :
    handleConfirmApproval ⟨"user"⟩ storePendente "p1" "2024-03-01T00:00:00Z"
      = handleConfirmApproval ⟨"admin"⟩ storePendente "p1" "2024-03-01T00:00:00Z"
    ∧ reqField (handleConfirmApproval ⟨"user"⟩ storePendente "p1"
        "2024-03-01T00:00:00Z") "p1" "status" = some "aprovado"
    ∧ sget (handleConfirmApproval ⟨"user"⟩ storePendente "p1"
        "2024-03-01T00:00:00Z") "p1" ≠ sget storePendente "p1"
    ∧ reqField (handleConfirmPurchase ⟨"user"⟩ storeAprovado "a1"
        [("valorServico", "20")] "2024-03-01T00:00:00Z") "a1" "status"
      = some "comprado" := by
  decide

/-- C2 (amended): no AuthError is ever raised for the invoker's role — the
transition handlers ignore the actor entirely, so their outcome is identical
for every role and for every request status.  Role gating exists only as view
reachability: the sidebar hides the approval and purchasing pages from role
`user` and the `App` permission map grants `user` only the `formulario` view,
so the controls that issue Approve and ConfirmPurchase are unreachable for
that role. -/
theorem role_gating_is_view_reachability_only (a b : Actor) (store : Store)
    (id justification now : String) (pd : Doc) :
    handleConfirmApproval a store id now = handleConfirmApproval b store id now
    ∧ handleConfirmRejection a store id justification now
      = handleConfirmRejection b store id justification now
    ∧ handleConfirmPurchase a store id pd now = handleConfirmPurchase b store id pd now
    ∧ sidebarVisible "user" "aprovar_compras" = false
    ∧ sidebarVisible "user" "setor_compras" = false
    ∧ rolePermissions "user" = ["formulario"] :=
  ⟨rfl, rfl, rfl, by decide, by decide, by decide⟩

/-- C9: `confirmPurchase` spreads the caller-supplied fulfillment data after
`{status: 'comprado', purchasedAt: now}`.  When the fulfillment map carries
neither key, the stored request ends `comprado` with the fresh `purchasedAt`;
when it carries either key, the caller's value overrides the engine-written
one, so the `comprado` postcondition holds only under that precondition. -/
theorem confirmPurchase_spread_override (store : Store) (id now : String) (pd : Doc) :
    (dget pd "status" = none →
        reqField (confirmPurchase store id pd now) id "status" = some "comprado")
    ∧ (dget pd "purchasedAt" = none →
        reqField (confirmPurchase store id pd now) id "purchasedAt" = some now)
    ∧ (∀ v, dget pd "status" = some v →
        reqField (confirmPurchase store id pd now) id "status" = some v)
    ∧ (∀ v, dget pd "purchasedAt" = some v →
        reqField (confirmPurchase store id pd now) id "purchasedAt" = some v) := by
  have hshow : confirmPurchase store id pd now
      = patchAt store id (confirmPayload now pd) := rfl
  refine ⟨?_, ?_, ?_, ?_⟩
  · intro h
    have hc : dget (confirmPayload now pd) "status" = some "comprado" := by
      unfold confirmPayload
      rw [dget_patchDoc_of_none _ h, dget_cons_self]
    rw [hshow, reqField_patchAt, hc]
  · intro h
    have hc : dget (confirmPayload now pd) "purchasedAt" = some now := by
      unfold confirmPayload
      rw [dget_patchDoc_of_none _ h, dget_cons_ne (by decide), dget_cons_self]
    rw [hshow, reqField_patchAt, hc]
  · intro v h
    have hc : dget (confirmPayload now pd) "status" = some v :=
      dget_patchDoc_of_delta _ h
    rw [hshow, reqField_patchAt, hc]
  · intro v h
    have hc : dget (confirmPayload now pd) "purchasedAt" = some v :=
      dget_patchDoc_of_delta _ h
    rw [hshow, reqField_patchAt, hc]

/-- C9 witness: a fulfillment map that carries its own `status` key overrides
the engine-written `comprado` on a concrete store. -/
theorem confirmPurchase_spread_override_witness :
    dget ([("status", "pendente")] : Doc) "status" = some "pendente"
    ∧ reqField (confirmPurchase storeAprovado "a1" [("status", "pendente")]
        "2024-04-01T00:00:00Z") "a1" "status" = some "pendente" :=
  ⟨by decide,
   (confirmPurchase_spread_override storeAprovado "a1" "2024-04-01T00:00:00Z"
      [("status", "pendente")]).2.2.1 "pendente" (by decide)⟩

/-- C3: each transition writes exactly its documented fields.  Approve patches
only `status = 'aprovado'` and `approvedAt = now`; Reject patches only
`status = 'reprovado'`, `rejectedAt = now` and `justification` (the given
value, or `''` when absent); ConfirmPurchase patches `status = 'comprado'`,
`purchasedAt = now` and the fulfillment fields.  Every other stored field is
unchanged, and no transition clears a previously set timestamp (for
ConfirmPurchase under the stated precondition that the fulfillment map does
not itself carry the engine-owned keys, which the purchase modal never
does). -/
theorem transition_frame (store : Store) (id now : String) (j : Option String)
    (fd : Doc) (hst : dget fd "status" = none) (hpu : dget fd "purchasedAt" = none)
    (hap : dget fd "approvedAt" = none) (hre : dget fd "rejectedAt" = none) :
    (reqField (updatePurchaseRequestStatus store id "aprovado" j now) id "status"
        = some "aprovado"
     ∧ reqField (updatePurchaseRequestStatus store id "aprovado" j now) id "approvedAt"
        = some now
     ∧ ∀ k, k ≠ "status" → k ≠ "approvedAt" →
        reqField (updatePurchaseRequestStatus store id "aprovado" j now) id k
          = reqField store id k)
    ∧ (reqField (updatePurchaseRequestStatus store id "reprovado" j now) id "status"
        = some "reprovado"
     ∧ reqField (updatePurchaseRequestStatus store id "reprovado" j now) id "rejectedAt"
        = some now
     ∧ reqField (updatePurchaseRequestStatus store id "reprovado" j now) id "justification"
        = some (j.getD "")
     ∧ ∀ k, k ≠ "status" → k ≠ "rejectedAt" → k ≠ "justification" →
        reqField (updatePurchaseRequestStatus store id "reprovado" j now) id k
          = reqField store id k)
    ∧ (reqField (confirmPurchase store id fd now) id "status" = some "comprado"
     ∧ reqField (confirmPurchase store id fd now) id "purchasedAt" = some now
     ∧ (∀ k, k ≠ "status" → k ≠ "purchasedAt" → dget fd k = none →
        reqField (confirmPurchase store id fd now) id k = reqField store id k)
     ∧ reqField (confirmPurchase store id fd now) id "approvedAt"
        = reqField store id "approvedAt"
     ∧ reqField (confirmPurchase store id fd now) id "rejectedAt"
        = reqField store id "rejectedAt") := by
  have happr : updatePurchaseRequestStatus store id "aprovado" j now
      = patchAt store id [("status", "aprovado"), ("approvedAt", now)] := rfl
  have hrej : updatePurchaseRequestStatus store id "reprovado" j now
      = patchAt store id
          [("status", "reprovado"), ("rejectedAt", now), ("justification", j.getD "")] := rfl
  have hconf : confirmPurchase store id fd now
      = patchAt store id (confirmPayload now fd) := rfl
  have hconfFrame : ∀ k, k ≠ "status" → k ≠ "purchasedAt" → dget fd k = none →
      reqField (confirmPurchase store id fd now) id k = reqField store id k := by
    intro k hks hkp hfd
    have hd : dget (confirmPayload now fd) k = none := by
      unfold confirmPayload
      rw [dget_patchDoc_of_none _ hfd, dget_cons_ne (Ne.symm hks),
        dget_cons_ne (Ne.symm hkp), dget_nil]
    rw [hconf, reqField_patchAt, hd]
  refine ⟨⟨?_, ?_, ?_⟩, ⟨?_, ?_, ?_, ?_⟩, ?_, ?_, ?_, ?_, ?_⟩
  · rw [happr, reqField_patchAt]
    rfl
  · rw [happr, reqField_patchAt]
    rfl
  · intro k hks hka
    have hd : dget [("status", "aprovado"), ("approvedAt", now)] k = none := by
      rw [dget_cons_ne (Ne.symm hks), dget_cons_ne (Ne.symm hka), dget_nil]
    rw [happr, reqField_patchAt, hd]
  · rw [hrej, reqField_patchAt]
    rfl
  · rw [hrej, reqField_patchAt]
    rfl
  · rw [hrej, reqField_patchAt]
    rfl
  · intro k hks hkr hkj
    have hd : dget [("status", "reprovado"), ("rejectedAt", now),
        ("justification", j.getD "")] k = none := by
      rw [dget_cons_ne (Ne.symm hks), dget_cons_ne (Ne.symm hkr),
        dget_cons_ne (Ne.symm hkj), dget_nil]
    rw [hrej, reqField_patchAt, hd]
  · have hc : dget (confirmPayload now fd) "status" = some "comprado" := by
      unfold confirmPayload
      rw [dget_patchDoc_of_none _ hst, dget_cons_self]
    rw [hconf, reqField_patchAt, hc]
  · have hc : dget (confirmPayload now fd) "purchasedAt" = some now := by
      unfold confirmPayload
      rw [dget_patchDoc_of_none _ hpu, dget_cons_ne (by decide), dget_cons_self]
    rw [hconf, reqField_patchAt, hc]
  · exact hconfFrame
  · exact hconfFrame "approvedAt" (by decide) (by decide) hap
  · exact hconfFrame "rejectedAt" (by decide) (by decide) hre

/-- C3 witness: a concrete instance of `transition_frame` — approving a
pending request with a fulfillment-free frame. -/
theorem transition_frame_witness :
    dget ([("valorProduto", "99")] : Doc) "status" = none
    ∧ reqField (updatePurchaseRequestStatus storePendente "p1" "aprovado"
        (some "x") "2024-05-01T00:00:00Z") "p1" "status" = some "aprovado" :=
  ⟨by decide,
   (transition_frame storePendente "p1" "2024-05-01T00:00:00Z" (some "x")
      [("valorProduto", "99")] (by decide) (by decide) (by decide) (by decide)).1.1⟩

/-- C7: currency normalization.  `"R$ 1.234,56"` cleans and parses to the
exact amount 1234.56; empty/null/undefined inputs display as "não informado"
and contribute 0 to the aggregate spend; and any string that still fails
parsing after cleaning contributes 0 to the aggregate instead of raising. -/
theorem currency_normalization :
    parseFloat (cleanCurrency "R$ 1.234,56") = some ((123456 : ℚ) / 100)
    ∧ formatCurrency (.str "R$ 1.234,56") = .formatted ((123456 : ℚ) / 100)
    ∧ formatCurrency .null = .naoInformado
    ∧ formatCurrency (.str "") = .naoInformado
    ∧ (∀ req : Doc,
        jsOr (dget req "valorProduto") (dget req "valorServico") = none →
        spendContribution req = 0)
    ∧ (∀ req : Doc,
        jsOr (dget req "valorProduto") (dget req "valorServico") = some "" →
        spendContribution req = 0)
    ∧ (∀ (req : Doc) (s : String),
        jsOr (dget req "valorProduto") (dget req "valorServico") = some s →
        parseFloat (cleanCurrency s) = none →
        spendContribution req = 0) := by
  have hparse : parseFloat (cleanCurrency "R$ 1.234,56") = some (mkRat 123456 100) := rfl
  have hmk : (mkRat 123456 100 : ℚ) = (123456 : ℚ) / 100 := by
    rw [Rat.mkRat_eq_div]
    norm_num
  have hfmt : formatCurrency (.str "R$ 1.234,56")
      = .formatted (mkRat 123456 100) := rfl
  refine ⟨by rw [hparse, hmk], by rw [hfmt, hmk], rfl, rfl, ?_, ?_, ?_⟩
  · intro req h
    simp [spendContribution, h, truthyStr]
  · intro req h
    simp [spendContribution, h, truthyStr]
  · intro req s h hparse
    by_cases hs : s = ""
    · subst hs
      simp [spendContribution, h, truthyStr]
    · simp [spendContribution, h, truthyStr, string_beq_false_of_ne hs, hparse]

/-- C7 witness: a concrete `comprado` request whose value string fails parsing
after cleaning contributes zero. -/
theorem currency_normalization_witness :
    parseFloat (cleanCurrency "abc") = none
    ∧ spendContribution [("status", "comprado"), ("valorProduto", "abc")] = 0 :=
  ⟨by decide,
   currency_normalization.2.2.2.2.2.2
     [("status", "comprado"), ("valorProduto", "abc")] "abc" (by decide) (by decide)⟩

/-- C8: invoice attach/read round-trip.  For every request identifier and
every prior state of the two stores, attaching pages `["aGVsbG8="]` with
mimeType `"image/jpeg"` and then reading the invoice for that request returns
exactly the same page sequence and MIME type; attaching an empty page list
fails (the error carries no new stores — nothing is written). -/
theorem invoice_roundtrip (id now : String) (origName : Option String)
    (inv : InvoiceStore) (store : Store) :
    (∀ out, uploadAndLinkInvoice id ["aGVsbG8="] "image/jpeg" origName now inv store
        = .ok out →
      readInvoice out.1 id = .ok ⟨["aGVsbG8="], "image/jpeg"⟩)
    ∧ uploadAndLinkInvoice id [] "image/jpeg" origName now inv store
        = .error "Nenhuma página foi processada para a nota fiscal." := by
  constructor
  · intro out h
    have hout : out = (invSet inv id (helloInvoice origName now),
        patchAt store id [("hasInvoice", "true"), ("invoicePagesCount", "1")]) := by
      simpa [uploadAndLinkInvoice, helloInvoice] using h.symm
    subst hout
    simp [readInvoice, invGet_invSet_self, getInvoice, helloInvoice, usablePages,
      filterTruthyPages]
  · rfl

/-- C8 witness: a concrete round-trip on empty stores. -/
theorem invoice_roundtrip_witness :
    uploadAndLinkInvoice "w8" ["aGVsbG8="] "image/jpeg" none "T8" [] []
      = .ok ([("w8", helloInvoice none "T8")],
             [("w8", [("hasInvoice", "true"), ("invoicePagesCount", "1")])])
    ∧ readInvoice [("w8", helloInvoice none "T8")] "w8"
      = .ok ⟨["aGVsbG8="], "image/jpeg"⟩ :=
  ⟨rfl,
   (invoice_roundtrip "w8" "T8" none [] []).1
     ([("w8", helloInvoice none "T8")],
      [("w8", [("hasInvoice", "true"), ("invoicePagesCount", "1")])]) rfl⟩

/-- C10: `getInvoice` succeeds exactly when the fetched document exists, holds
a truthy `mimeType` string, and offers either a usable page (a non-empty
`pages` array after discarding empty and missing entries) or a truthy legacy
`invoiceData` string; in the legacy case the result is the one-page sequence
holding that string, and in every other case it is an error, not a partial
invoice. -/
theorem getInvoice_success_characterization (fetched : Option InvoiceFields) :
    ((∃ r, getInvoice fetched = .ok r) ↔
      ∃ d, fetched = some d
        ∧ (∃ mt, d.mimeType = some mt ∧ mt ≠ "")
        ∧ (usablePages d ≠ [] ∨ ∃ s, d.invoiceData = some s ∧ s ≠ ""))
    ∧ (∀ d mt s, fetched = some d → d.mimeType = some mt → mt ≠ "" →
        usablePages d = [] → d.invoiceData = some s → s ≠ "" →
        getInvoice fetched = .ok ⟨[s], mt⟩) := by
  constructor
  · cases fetched with
    | none => simp [getInvoice]
    | some d =>
      cases hmt : d.mimeType with
      | none => simp [getInvoice, hmt]
      | some mt =>
        by_cases hmte : mt = ""
        · subst hmte
          simp [getInvoice, hmt]
        · by_cases hup : usablePages d = []
          · cases hid : d.invoiceData with
            | none =>
              simp [getInvoice, hmt, string_beq_false_of_ne hmte, hup, hid, hmte]
            | some s =>
              by_cases hse : s = ""
              · subst hse
                simp [getInvoice, hmt, string_beq_false_of_ne hmte, hup, hid, hmte]
              · simp [getInvoice, hmt, string_beq_false_of_ne hmte, hup, hid, hmte,
                  string_beq_false_of_ne hse, hse]
          · have hlen : 0 < (usablePages d).length := List.length_pos.mpr hup
            simp [getInvoice, hmt, string_beq_false_of_ne hmte, hlen, hmte, hup]
  · intro d mt s hd hmt hmte hup hid hse
    subst hd
    simp [getInvoice, hmt, string_beq_false_of_ne hmte, hup, hid,
      string_beq_false_of_ne hse]

/-- C10 witness: the legacy single-field invoice read at a concrete
document. -/
theorem getInvoice_success_characterization_witness :
    usablePages legacyInvoice = []
    ∧ getInvoice (some legacyInvoice) = .ok ⟨["bGVnYWN5"], "image/png"⟩ :=
  ⟨by decide,
   (getInvoice_success_characterization (some legacyInvoice)).2 legacyInvoice
     "image/png" "bGVnYWN5" rfl rfl (by decide) (by decide) rfl (by decide)⟩

/-- C4: submit validation is aggregated.  A valid `produto` draft (unit,
urgency, type, product name and quantity present, and the conditional
deadline/link constraints met) is persisted with status `pendente`; any draft
with violated constraints fails with the single message naming every
collected field and no persistence is attempted; and each required-field name
appears in the collected list exactly when its constraint is violated — in
particular "Nome de quem quer indicar" for a `servico` draft with
`querIndicar = 'sim'` and an empty referral name. -/
theorem handleSubmit_validation (uid now newId : String) (store : Store)
    (f : FormData) :
    (f.unidade ≠ "" → f.urgencia ≠ "" → f.tipo = "produto" →
      f.nomeProduto ≠ "" → f.quantidadeProduto ≠ "" →
      (f.prazo = "sim" → f.prazoDataHora ≠ "") →
      (f.querLink = "sim" → f.linkProduto ≠ "") →
      handleSubmit f uid now newId store
        = .success (store ++ [(newId, requestData f uid now)]) newId
      ∧ dget (requestData f uid now) "status" = some "pendente")
    ∧ (validationErrors f ≠ [] →
      handleSubmit f uid now newId store
        = .validationError (validationMessage (validationErrors f)))
    ∧ ("Unidade" ∈ validationErrors f ↔ f.unidade = "")
    ∧ ("Grau de urgência" ∈ validationErrors f ↔ f.urgencia = "")
    ∧ ("Tipo" ∈ validationErrors f ↔ f.tipo = "")
    ∧ ("Data e Hora do Prazo" ∈ validationErrors f ↔
        f.prazo = "sim" ∧ f.prazoDataHora = "")
    ∧ ("Descrição do serviço" ∈ validationErrors f ↔
        f.tipo = "servico" ∧ f.descricaoServico = "")
    ∧ ("Nome de quem quer indicar" ∈ validationErrors f ↔
        f.tipo = "servico" ∧ f.querIndicar = "sim" ∧ f.nomeIndicado = "")
    ∧ ("Produto (nome)" ∈ validationErrors f ↔
        f.tipo = "produto" ∧ f.nomeProduto = "")
    ∧ ("Quantidade" ∈ validationErrors f ↔
        f.tipo = "produto" ∧ f.quantidadeProduto = "")
    ∧ ("Link do produto" ∈ validationErrors f ↔
        f.tipo = "produto" ∧ f.querLink = "sim" ∧ f.linkProduto = "") := by
  refine ⟨?_, ?_, ?_, ?_, ?_, ?_, ?_, ?_, ?_, ?_, ?_⟩
  · intro h1 h2 h3 h4 h5 h6 h7
    have hpz : (f.prazo == "sim" && f.prazoDataHora == "") = false := by
      by_cases hp : f.prazo = "sim"
      · simp [string_beq_false_of_ne (h6 hp)]
      · simp [string_beq_false_of_ne hp]
    have hql : (f.querLink == "sim" && f.linkProduto == "") = false := by
      by_cases hq : f.querLink = "sim"
      · simp [string_beq_false_of_ne (h7 hq)]
      · simp [string_beq_false_of_ne hq]
    have hve : validationErrors f = [] := by
      simp [validationErrors, string_beq_false_of_ne h1, string_beq_false_of_ne h2,
        h3, string_beq_false_of_ne h4, string_beq_false_of_ne h5, hpz, hql]
    refine ⟨?_, rfl⟩
    simp [handleSubmit, hve, addPurchaseRequest]
  · intro hne
    simp [handleSubmit, List.isEmpty_iff, hne]
  all_goals simp [validationErrors, mem_ite_list, and_assoc]

/-- C4 witness: the concrete valid `produto` draft `fProd` is persisted with
status `pendente`. -/
theorem handleSubmit_validation_witness :
    handleSubmit fProd "uid1" "2024-06-01T00:00:00Z" "k1" []
      = .success [("k1", requestData fProd "uid1" "2024-06-01T00:00:00Z")] "k1" := by
  have h := (handleSubmit_validation "uid1" "2024-06-01T00:00:00Z" "k1" [] fProd).1
    (by decide) (by decide) rfl (by decide) (by decide) (by decide) (by decide)
  simpa using h.1

/-- C5: submit/list round-trip.  For every valid draft, the request created by
`handleSubmit` and then fetched by listing the collection reproduces every
field supplied at submission, plus the injected `status = 'pendente'`, the
`createdAt` timestamp, and the store-assigned identifier under `id`. -/
theorem submit_list_roundtrip (uid now newId : String) (store : Store)
    (f : FormData) (hvalid : validationErrors f = []) :
    ∃ d, handleSubmit f uid now newId store
        = .success (store ++ [(newId, requestData f uid now)]) newId
      ∧ d ∈ getPurchaseRequests (store ++ [(newId, requestData f uid now)])
      ∧ dget d "id" = some newId
      ∧ dget d "nome" = some f.nome
      ∧ dget d "email" = some f.email
      ∧ dget d "unidade" = some f.unidade
      ∧ dget d "prazo" = some f.prazo
      ∧ dget d "prazoDataHora" = some f.prazoDataHora
      ∧ dget d "urgencia" = some f.urgencia
      ∧ dget d "tipo" = some f.tipo
      ∧ dget d "descricaoServico" = some f.descricaoServico
      ∧ dget d "querIndicar" = some f.querIndicar
      ∧ dget d "nomeIndicado" = some f.nomeIndicado
      ∧ dget d "nomeProduto" = some f.nomeProduto
      ∧ dget d "quantidadeProduto" = some f.quantidadeProduto
      ∧ dget d "querLink" = some f.querLink
      ∧ dget d "linkProduto" = some f.linkProduto
      ∧ dget d "requesterUid" = some uid
      ∧ dget d "createdAt" = some now
      ∧ dget d "status" = some "pendente" := by
  refine ⟨patchDoc [("id", newId)] (requestData f uid now), ?_, ?_, ?_, ?_, ?_, ?_,
    ?_, ?_, ?_, ?_, ?_, ?_, ?_, ?_, ?_, ?_, ?_, ?_, ?_, ?_⟩
  · simp [handleSubmit, hvalid, addPurchaseRequest]
  · unfold getPurchaseRequests
    rw [List.map_append]
    exact List.mem_append_right _ (by simp)
  · exact dget_patchDoc_of_none _ rfl
  all_goals exact dget_patchDoc_of_delta _ rfl

/-- C5 witness: the round-trip at the concrete valid draft `fProd`. -/
theorem submit_list_roundtrip_witness :
    validationErrors fProd = []
    ∧ handleSubmit fProd "uid2" "2024-06-02T00:00:00Z" "k2" []
      = .success [("k2", requestData fProd "uid2" "2024-06-02T00:00:00Z")] "k2" :=
  ⟨by decide, by
    obtain ⟨d, hd, -⟩ :=
      submit_list_roundtrip "uid2" "2024-06-02T00:00:00Z" "k2" [] fProd (by decide)
    simpa using hd⟩

end Compras
